import Mathlib

/-!
Shallow embedding of `smappy/smappy.py`, a thin OAuth2 client for the
Smappee REST API.

Modelling conventions:
* A Python `datetime.datetime` is modelled by its absolute timestamp as an
  integer number of microseconds since the Unix epoch (Python datetimes have
  microsecond resolution); `datetime.utcnow()` becomes an explicit `now`
  argument threaded to the functions that call it.
* `requests.post` / `requests.get` perform no computation in this client
  beyond building the request; each method is modelled by the `HttpRequest`
  value it sends, and the JSON grant response it consumes is an explicit
  argument (`GrantResponse`, with `Option` fields so that a missing key can
  be modelled: Python `j[k]` on a missing key raises `KeyError`).
* Python exceptions are modelled with `Except`; where an exception escapes a
  method that has already mutated `self`, the error value carries the state
  at the point the exception was raised.
* `if self.token_expiration_time >= dt.datetime.utcnow()` compares a
  possibly-`None` attribute with a datetime; when the attribute is `None`
  Python raises `TypeError` before anything else happens.
-/

set_option autoImplicit false

/-- `URLS['token']` from the source. -/
def urlToken : String := "https://app1pub.smappee.net/dev/v1/oauth2/token"

/-- `URLS['servicelocation']` from the source. -/
def urlServicelocation : String := "https://app1pub.smappee.net/dev/v1/servicelocation"

/-- The argument accepted by `Smappee._to_milliseconds`: a Python
`datetime.datetime` (carried as microseconds since the epoch, the value
`time.timestamp()` denotes exactly), an `int` (epoch milliseconds), or any
other runtime value (carried as a printable form; only its non-membership in
the two accepted classes matters). -/
inductive TimeInput where
  | dtime (micros : Int)
  | epoch (ms : Int)
  | other (text : String)
deriving DecidableEq, Repr

/-- The attributes of a `Smappee` object: credentials fixed by `__init__`
and the three session-state attributes, `None` at construction. -/
structure Smappee where
  client_id : String
  client_secret : String
  access_token : Option String
  refresh_token : Option String
  token_expiration_time : Option Int
deriving DecidableEq, Repr

/-- `Smappee.__init__(client_id, client_secret)`. -/
def Smappee.init (client_id client_secret : String) : Smappee :=
  { client_id := client_id
    client_secret := client_secret
    access_token := none
    refresh_token := none
    token_expiration_time := none }

/-- A token-grant JSON response body as consumed by `authenticate` and
`re_authenticate`; `none` models an absent key. -/
structure GrantResponse where
  access_token : Option String
  refresh_token : Option String
  expires_in : Option Int
deriving DecidableEq, Repr

/-- The observable content of one outgoing HTTP round trip. Query-parameter
values in this client are integers or `None` (`maxNumber`), so `params` maps
names to `Option Int`. -/
structure HttpRequest where
  method : String
  url : String
  headers : List (String × String)
  params : List (String × Option Int)
  formData : List (String × String)
deriving DecidableEq, Repr

/-- Python `str(x)` / `"{}".format(x)` on an optional string attribute:
`None` prints as the text `None`. -/
def pyStr : Option String → String
  | none => "None"
  | some s => s

/-- `dt.timedelta(0, expires_in)` in microseconds. -/
def secondsToMicros (s : Int) : Int := 1000000 * s

/-- `Smappee._set_token_expiration_time(expires_in)`:
`self.token_expiration_time = dt.datetime.utcnow() + dt.timedelta(0, expires_in)`. -/
def Smappee.set_token_expiration_time (st : Smappee) (expires_in : Int) (now : Int) : Smappee :=
  { st with token_expiration_time := some (now + secondsToMicros expires_in) }

/-- The shared tail of `authenticate` and `re_authenticate`:
`self.access_token = j[...]; self.refresh_token = j[...];
self._set_token_expiration_time(expires_in=j[...])`.
Each key lookup may raise `KeyError`; the error carries the state at the
point of the raise, i.e. with the assignments already performed so far. -/
def applyGrant (st : Smappee) (j : GrantResponse) (now : Int) :
    Except (String × Smappee) Smappee :=
  match j.access_token with
  | none => .error (("KeyError: access_token"), st)
  | some a =>
    let st1 := { st with access_token := some a }
    match j.refresh_token with
    | none => .error (("KeyError: refresh_token"), st1)
    | some r =>
      let st2 := { st1 with refresh_token := some r }
      match j.expires_in with
      | none => .error (("KeyError: expires_in"), st2)
      | some e => .ok (st2.set_token_expiration_time e now)

/-- The POST request built by `Smappee.authenticate(username, password)`. -/
def Smappee.authenticate_request (st : Smappee) (username password : String) : HttpRequest :=
  { method := "POST"
    url := urlToken
    headers := []
    params := []
    formData :=
      [(("grant_type"), ("password")),
       (("client_id"), st.client_id),
       (("client_secret"), st.client_secret),
       (("username"), username),
       (("password"), password)] }

/-- `Smappee.authenticate(username, password)`: the outgoing request paired
with the state transition driven by the grant response `j`, received (and
`utcnow()` sampled) at `now`. -/
def Smappee.authenticate (st : Smappee) (username password : String)
    (j : GrantResponse) (now : Int) :
    HttpRequest × Except (String × Smappee) Smappee :=
  (st.authenticate_request username password, applyGrant st j now)

/-- The POST request built by `Smappee.re_authenticate()`. -/
def Smappee.re_authenticate_request (st : Smappee) : HttpRequest :=
  { method := "POST"
    url := urlToken
    headers := []
    params := []
    formData :=
      [(("grant_type"), ("refresh_token")),
       (("refresh_token"), pyStr st.refresh_token),
       (("client_id"), st.client_id),
       (("client_secret"), st.client_secret)] }

/-- `Smappee.re_authenticate()`: the state transition driven by the refresh
grant response `j` received at `now`. -/
def Smappee.re_authenticate (st : Smappee) (j : GrantResponse) (now : Int) :
    Except (String × Smappee) Smappee :=
  applyGrant st j now

/-- The message of the `TypeError` Python raises when
`self.token_expiration_time` is `None` in the guard comparison. -/
def noneComparisonError : String :=
  "TypeError: unorderable comparison between NoneType and datetime.datetime"

/-- The `authenticated` decorator: before delegating to the wrapped call it
evaluates `if self.token_expiration_time >= dt.datetime.utcnow():
self.re_authenticate()`. `now` is the `utcnow()` of the guard, `refreshNow`
the `utcnow()` of the refresh (if one happens), `j` the grant response a
refresh would consume, and `call` the wrapped method body (which sees the
possibly-refreshed state). The result records whether `re_authenticate` was
invoked, the wrapped call's value, and the state after the whole operation. -/
def authenticatedWrapper {α : Type} (st : Smappee) (now : Int)
    (j : GrantResponse) (refreshNow : Int) (call : Smappee → α) :
    Except (String × Smappee) (Bool × α × Smappee) :=
  match st.token_expiration_time with
  | none => .error (noneComparisonError, st)
  | some expTime =>
    if now ≤ expTime then
      match st.re_authenticate j refreshNow with
      | .error err => .error err
      | .ok st2 => .ok (true, call st2, st2)
    else
      .ok (false, call st, st)

/-- The GET request built by `Smappee.get_service_locations`. -/
def Smappee.get_service_locations_request (st : Smappee) : HttpRequest :=
  { method := "GET"
    url := urlServicelocation
    headers := [(("Authorization"), ("Bearer ") ++ pyStr st.access_token)]
    params := []
    formData := [] }

/-- The GET request built by `Smappee.get_service_location_info`. -/
def Smappee.get_service_location_info_request (st : Smappee)
    (service_location_id : Int) : HttpRequest :=
  { method := "GET"
    url := urlServicelocation ++ ("/") ++ toString service_location_id ++ ("/info")
    headers := [(("Authorization"), ("Bearer ") ++ pyStr st.access_token)]
    params := []
    formData := [] }

/-- `Smappee._to_milliseconds(time)`: a `datetime` is converted by
`int(time.timestamp() * 1e3)` — with `time.timestamp()` equal to
`micros / 10^6` seconds, the product is `micros / 10^3` and `int(...)`
truncates toward zero; an `int` is returned unchanged; anything else raises
`NotImplementedError`. -/
def Smappee.to_milliseconds (time : TimeInput) : Except String Int :=
  match time with
  | .dtime micros => .ok (Int.tdiv micros 1000)
  | .epoch ms => .ok ms
  | .other _ =>
    .error ("NotImplementedError: Time format not supported. Use epochs, Datetime or Pandas Datetime")

/-- The GET request built by `Smappee.get_consumption` after converting
`start` and `end` with `_to_milliseconds` (either conversion may raise). -/
def Smappee.get_consumption_request (st : Smappee) (service_location_id : Int)
    (start endT : TimeInput) (aggregation : Int) : Except String HttpRequest := do
  let s ← Smappee.to_milliseconds start
  let e ← Smappee.to_milliseconds endT
  pure
    { method := "GET"
      url := urlServicelocation ++ ("/") ++ toString service_location_id ++ ("/consumption")
      headers := [(("Authorization"), ("Bearer ") ++ pyStr st.access_token)]
      params :=
        [(("aggregation"), some aggregation),
         (("from"), some s),
         (("to"), some e)]
      formData := [] }

/-- The GET request built by `Smappee.get_events` after converting `start`
and `end` with `_to_milliseconds`; `max_number` defaults to `None` and is
passed through as the `maxNumber` query parameter. -/
def Smappee.get_events_request (st : Smappee) (service_location_id appliance_id : Int)
    (start endT : TimeInput) (max_number : Option Int) : Except String HttpRequest := do
  let s ← Smappee.to_milliseconds start
  let e ← Smappee.to_milliseconds endT
  pure
    { method := "GET"
      url := urlServicelocation ++ ("/") ++ toString service_location_id ++ ("/events")
      headers := [(("Authorization"), ("Bearer ") ++ pyStr st.access_token)]
      params :=
        [(("from"), some s),
         (("to"), some e),
         (("applianceId"), some appliance_id),
         (("maxNumber"), max_number)]
      formData := [] }

/-- `Smappee.get_service_locations()` with its `authenticated` guard. -/
def Smappee.get_service_locations (st : Smappee) (now : Int)
    (j : GrantResponse) (refreshNow : Int) :
    Except (String × Smappee) (Bool × HttpRequest × Smappee) :=
  authenticatedWrapper st now j refreshNow Smappee.get_service_locations_request

/-- `Smappee.get_service_location_info(id)` with its `authenticated` guard. -/
def Smappee.get_service_location_info (st : Smappee) (now : Int)
    (j : GrantResponse) (refreshNow : Int) (service_location_id : Int) :
    Except (String × Smappee) (Bool × HttpRequest × Smappee) :=
  authenticatedWrapper st now j refreshNow
    (fun s => s.get_service_location_info_request service_location_id)

/-- `Smappee.get_consumption(id, start, end, aggregation)` with its
`authenticated` guard. -/
def Smappee.get_consumption (st : Smappee) (now : Int)
    (j : GrantResponse) (refreshNow : Int) (service_location_id : Int)
    (start endT : TimeInput) (aggregation : Int) :
    Except (String × Smappee) (Bool × Except String HttpRequest × Smappee) :=
  authenticatedWrapper st now j refreshNow
    (fun s => s.get_consumption_request service_location_id start endT aggregation)

/-- `Smappee.get_events(id, appliance_id, start, end, max_number)` with its
`authenticated` guard. -/
def Smappee.get_events (st : Smappee) (now : Int)
    (j : GrantResponse) (refreshNow : Int) (service_location_id appliance_id : Int)
    (start endT : TimeInput) (max_number : Option Int) :
    Except (String × Smappee) (Bool × Except String HttpRequest × Smappee) :=
  authenticatedWrapper st now j refreshNow
    (fun s => s.get_events_request service_location_id appliance_id start endT max_number)

/-- `Smappee.actuator_on()`: raises `NotImplementedError`, touching nothing. -/
def Smappee.actuator_on (st : Smappee) : Except String Unit × Smappee :=
  (.error ("NotImplementedError"), st)

/-- `Smappee.actuator_off()`: raises `NotImplementedError`, touching nothing. -/
def Smappee.actuator_off (st : Smappee) : Except String Unit × Smappee :=
  (.error ("NotImplementedError"), st)

/-- The credential attributes of a state, for frame statements. -/
def credsOf (st : Smappee) : String × String := (st.client_id, st.client_secret)

/-- The state a grant transition leaves behind, whether it succeeds or
raises mid-way. -/
def outState : Except (String × Smappee) Smappee → Smappee
  | .ok s => s
  | .error (_, s) => s

/-- The state a guarded operation leaves behind, whether it succeeds or
raises. -/
def wrapOutState {α : Type} :
    Except (String × Smappee) (Bool × α × Smappee) → Smappee
  | .ok (_, _, s) => s
  | .error (_, s) => s

/-! ### Helper lemmas (shared) -/

/-- `applyGrant` never touches the credential attributes, in the success
state or in the state carried by a mid-way `KeyError`. -/
theorem credsOf_applyGrant (st : Smappee) (j : GrantResponse) (now : Int) :
    credsOf (outState (applyGrant st j now)) = credsOf st := by
  unfold applyGrant
  cases j.access_token <;> cases j.refresh_token <;> cases j.expires_in <;>
    simp [outState, credsOf, Smappee.set_token_expiration_time]

/-- The state left behind by an `authenticated`-guarded call is either the
input state untouched, or the state `re_authenticate` produced. -/
theorem wrapOutState_authenticatedWrapper {α : Type} (st : Smappee)
    (now refreshNow : Int) (j : GrantResponse) (call : Smappee → α) :
    wrapOutState (authenticatedWrapper st now j refreshNow call) = st ∨
    wrapOutState (authenticatedWrapper st now j refreshNow call) =
      outState (st.re_authenticate j refreshNow) := by
  unfold authenticatedWrapper Smappee.re_authenticate
  cases st.token_expiration_time with
  | none => exact Or.inl rfl
  | some expTime =>
    by_cases hc : now ≤ expTime
    · right
      simp only [hc, if_true]
      cases applyGrant st j refreshNow with
      | ok st2 => rfl
      | error err => cases err with | mk m s => rfl
    · left
      simp only [hc, if_false]
      rfl

/-- Credentials survive an `authenticated`-guarded call. -/
theorem credsOf_authenticatedWrapper {α : Type} (st : Smappee)
    (now refreshNow : Int) (j : GrantResponse) (call : Smappee → α) :
    credsOf (wrapOutState (authenticatedWrapper st now j refreshNow call)) = credsOf st := by
  rcases wrapOutState_authenticatedWrapper st now refreshNow j call with h | h
  · rw [h]
  · rw [h]
    exact credsOf_applyGrant st j refreshNow

/-! ### Claim theorems -/

/-- C4: `_to_milliseconds` applied to a calendar date-time equal to the Unix
epoch zero returns the integer `0`. -/
theorem to_milliseconds_epoch_zero_datetime :
    Smappee.to_milliseconds (TimeInput.dtime 0) = .ok 0 := rfl

/-- C5: `_to_milliseconds` returns any integer input unchanged. -/
theorem to_milliseconds_int_identity (x : Int) :
    Smappee.to_milliseconds (TimeInput.epoch x) = .ok x := rfl

/-- C6: on an input that is neither a date-time nor an integer,
`_to_milliseconds` fails with the unsupported-time-format signal and does
nothing else. -/
theorem to_milliseconds_unsupported (s : String) :
    Smappee.to_milliseconds (TimeInput.other s) =
      .error ("NotImplementedError: Time format not supported. Use epochs, Datetime or Pandas Datetime") :=
  rfl

/-- A populated session state used in concrete instantiations. -/
def sampleState : Smappee :=
  { client_id := "a"
    client_secret := "b"
    access_token := some "T0"
    refresh_token := some "R0"
    token_expiration_time := some 50 }

/-- A complete grant response used in concrete instantiations. -/
def sampleGrant : GrantResponse :=
  { access_token := some "T1"
    refresh_token := some "R1"
    expires_in := some 3600 }

/-- C2: when the grant response carries `access_token`, `refresh_token` and
`expires_in`, `authenticate` stores the two tokens exactly as returned and
sets `token_expiration_time` to the reception time plus `expires_in`
seconds. -/
theorem authenticate_stores_grant (st : Smappee) (username password a r : String)
    (e now : Int) (j : GrantResponse)
    (ha : j.access_token = some a) (hr : j.refresh_token = some r)
    (he : j.expires_in = some e) :
    (st.authenticate username password j now).2 =
      .ok { st with access_token := some a
                    refresh_token := some r
                    token_expiration_time := some (now + secondsToMicros e) } := by
  simp [Smappee.authenticate, applyGrant, ha, hr, he, Smappee.set_token_expiration_time]

/-- Concrete instantiation of the C2 theorem. -/
theorem authenticate_stores_grant_witness :
    ((Smappee.init ("a") ("b")).authenticate ("u") ("p") sampleGrant 0).2 =
      .ok { Smappee.init ("a") ("b") with
              access_token := some ("T1")
              refresh_token := some ("R1")
              token_expiration_time := some (0 + secondsToMicros 3600) } :=
  authenticate_stores_grant (Smappee.init ("a") ("b")) ("u") ("p") ("T1") ("R1")
    3600 0 sampleGrant rfl rfl rfl

/-- C3: a refresh grant carrying all three fields replaces the whole session
state with values derived from the response alone; the credential fields are
carried over and nothing of the prior tokens survives. -/
theorem re_authenticate_replaces_wholesale (st : Smappee) (a r : String)
    (e now : Int) (j : GrantResponse)
    (ha : j.access_token = some a) (hr : j.refresh_token = some r)
    (he : j.expires_in = some e) :
    st.re_authenticate j now =
      .ok { client_id := st.client_id
            client_secret := st.client_secret
            access_token := some a
            refresh_token := some r
            token_expiration_time := some (now + secondsToMicros e) } := by
  simp [Smappee.re_authenticate, applyGrant, ha, hr, he, Smappee.set_token_expiration_time]

/-- Concrete instantiation of the C3 theorem, at a state with prior tokens. -/
theorem re_authenticate_replaces_wholesale_witness :
    sampleState.re_authenticate sampleGrant 7 =
      .ok { client_id := sampleState.client_id
            client_secret := sampleState.client_secret
            access_token := some ("T1")
            refresh_token := some ("R1")
            token_expiration_time := some (7 + secondsToMicros 3600) } :=
  re_authenticate_replaces_wholesale sampleState ("T1") ("R1") 3600 7 sampleGrant rfl rfl rfl

/-- C10: the token-state update is not atomic. If the response lacks
`refresh_token`, the `KeyError` escapes after `access_token` was already
overwritten, with `refresh_token` and `token_expiration_time` keeping their
prior values; if it lacks only `expires_in`, the `KeyError` escapes with the
two tokens already overwritten and `token_expiration_time` keeping its prior
value. This holds for `authenticate` and `re_authenticate` alike. -/
theorem grant_update_not_atomic (st : Smappee) (username password a r : String)
    (j1 j2 : GrantResponse) (now : Int)
    (h1a : j1.access_token = some a) (h1r : j1.refresh_token = none)
    (h2a : j2.access_token = some a) (h2r : j2.refresh_token = some r)
    (h2e : j2.expires_in = none) :
    (st.authenticate username password j1 now).2 =
      .error (("KeyError: refresh_token"), { st with access_token := some a }) ∧
    st.re_authenticate j1 now =
      .error (("KeyError: refresh_token"), { st with access_token := some a }) ∧
    (st.authenticate username password j2 now).2 =
      .error (("KeyError: expires_in"),
              { st with access_token := some a, refresh_token := some r }) ∧
    st.re_authenticate j2 now =
      .error (("KeyError: expires_in"),
              { st with access_token := some a, refresh_token := some r }) := by
  refine ⟨?_, ?_, ?_, ?_⟩ <;>
    simp [Smappee.authenticate, Smappee.re_authenticate, applyGrant,
          h1a, h1r, h2a, h2r, h2e]

/-- Concrete instantiation of the C10 theorem, at a state whose prior tokens
are visible in the partially-updated error states. -/
theorem grant_update_not_atomic_witness :
    (sampleState.authenticate ("u") ("p")
        { access_token := some ("T1"), refresh_token := none, expires_in := some 3600 } 9).2 =
      .error (("KeyError: refresh_token"), { sampleState with access_token := some ("T1") }) ∧
    sampleState.re_authenticate
        { access_token := some ("T1"), refresh_token := none, expires_in := some 3600 } 9 =
      .error (("KeyError: refresh_token"), { sampleState with access_token := some ("T1") }) ∧
    (sampleState.authenticate ("u") ("p")
        { access_token := some ("T1"), refresh_token := some ("R1"), expires_in := none } 9).2 =
      .error (("KeyError: expires_in"),
              { sampleState with access_token := some ("T1"), refresh_token := some ("R1") }) ∧
    sampleState.re_authenticate
        { access_token := some ("T1"), refresh_token := some ("R1"), expires_in := none } 9 =
      .error (("KeyError: expires_in"),
              { sampleState with access_token := some ("T1"), refresh_token := some ("R1") }) :=
  grant_update_not_atomic sampleState ("u") ("p") ("T1") ("R1")
    { access_token := some ("T1"), refresh_token := none, expires_in := some 3600 }
    { access_token := some ("T1"), refresh_token := some ("R1"), expires_in := none }
    9 rfl rfl rfl rfl rfl

/-- C1: when a token-consuming operation runs with a stored expiration time,
its guard invokes `re_authenticate` if and only if that expiration time is
greater than or equal to the current UTC time — refreshing while the token
is still valid and skipping the refresh once it has expired — and then
delegates to the wrapped call on the resulting state. -/
theorem authenticated_guard_refresh_iff {α : Type} (st : Smappee)
    (expTime now refreshNow : Int) (j : GrantResponse) (call : Smappee → α)
    (h : st.token_expiration_time = some expTime) :
    (expTime ≥ now →
      authenticatedWrapper st now j refreshNow call =
        match st.re_authenticate j refreshNow with
        | .error err => .error err
        | .ok st2 => .ok (true, call st2, st2)) ∧
    (expTime < now →
      authenticatedWrapper st now j refreshNow call = .ok (false, call st, st)) := by
  constructor
  · intro hge
    simp [authenticatedWrapper, h, hge]
  · intro hlt
    simp [authenticatedWrapper, h, not_le.mpr hlt]

/-- Concrete instantiation of the C1 theorem: with expiration time `50`, a
call at time `10` (token still valid) triggers the refresh and delegates to
the refreshed state, while a call at time `100` (token expired) skips the
refresh and delegates to the unchanged state. -/
theorem authenticated_guard_refresh_iff_witness :
    (authenticatedWrapper sampleState 10 sampleGrant 20 (fun s => s.access_token) =
      match sampleState.re_authenticate sampleGrant 20 with
      | .error err => .error err
      | .ok st2 => .ok (true, st2.access_token, st2)) ∧
    (authenticatedWrapper sampleState 100 sampleGrant 20 (fun s => s.access_token) =
      .ok (false, sampleState.access_token, sampleState)) :=
  ⟨(authenticated_guard_refresh_iff sampleState 50 10 20 sampleGrant
      (fun s => s.access_token) rfl).1 (by decide),
   (authenticated_guard_refresh_iff sampleState 50 100 20 sampleGrant
      (fun s => s.access_token) rfl).2 (by decide)⟩

/-- C9: every token-consuming operation invoked on a freshly constructed
object fails with the guard's `TypeError` — the comparison of the absent
expiration time with the current time — leaving the state untouched and
never constructing or sending its request. -/
theorem fresh_state_guard_type_error (cid cs : String)
    (now refreshNow sid aid agg : Int) (j : GrantResponse)
    (start endT : TimeInput) (maxn : Option Int) :
    (Smappee.init cid cs).get_service_locations now j refreshNow =
      .error (noneComparisonError, Smappee.init cid cs) ∧
    (Smappee.init cid cs).get_service_location_info now j refreshNow sid =
      .error (noneComparisonError, Smappee.init cid cs) ∧
    (Smappee.init cid cs).get_consumption now j refreshNow sid start endT agg =
      .error (noneComparisonError, Smappee.init cid cs) ∧
    (Smappee.init cid cs).get_events now j refreshNow sid aid start endT maxn =
      .error (noneComparisonError, Smappee.init cid cs) := by
  refine ⟨?_, ?_, ?_, ?_⟩ <;>
    simp [Smappee.get_service_locations, Smappee.get_service_location_info,
          Smappee.get_consumption, Smappee.get_events,
          authenticatedWrapper, Smappee.init]

/-- C7: `get_consumption` converts `start` and `end` to epoch-milliseconds
and sends them as the `from`/`to` query parameters together with the
unvalidated `aggregation` value, on a GET to
`{servicelocation}/{id}/consumption`; in particular
`get_consumption(42, 1000, 2000, 3)` carries exactly
`aggregation=3, from=1000, to=2000` and its URL path contains
`/servicelocation/42/consumption`. -/
theorem get_consumption_request_params (st : Smappee) (sid agg ms1 ms2 : Int)
    (start endT : TimeInput)
    (h1 : Smappee.to_milliseconds start = .ok ms1)
    (h2 : Smappee.to_milliseconds endT = .ok ms2) :
    st.get_consumption_request sid start endT agg =
      .ok { method := ("GET")
            url := urlServicelocation ++ ("/") ++ toString sid ++ ("/consumption")
            headers := [(("Authorization"), ("Bearer ") ++ pyStr st.access_token)]
            params := [(("aggregation"), some agg), (("from"), some ms1), (("to"), some ms2)]
            formData := [] } ∧
    st.get_consumption_request 42 (TimeInput.epoch 1000) (TimeInput.epoch 2000) 3 =
      .ok { method := ("GET")
            url := ("https://app1pub.smappee.net/dev/v1") ++ ("/servicelocation/42/consumption")
            headers := [(("Authorization"), ("Bearer ") ++ pyStr st.access_token)]
            params := [(("aggregation"), some 3), (("from"), some 1000), (("to"), some 2000)]
            formData := [] } := by
  constructor
  · simp only [Smappee.get_consumption_request, h1, h2]
    rfl
  · rfl

/-- Concrete instantiation of the C7 theorem. -/
theorem get_consumption_request_params_witness :
    sampleState.get_consumption_request 42 (TimeInput.epoch 1000) (TimeInput.epoch 2000) 3 =
      .ok { method := ("GET")
            url := urlServicelocation ++ ("/") ++ toString (42 : Int) ++ ("/consumption")
            headers := [(("Authorization"), ("Bearer ") ++ pyStr sampleState.access_token)]
            params := [(("aggregation"), some 3), (("from"), some 1000), (("to"), some 2000)]
            formData := [] } :=
  (get_consumption_request_params sampleState 42 3 1000 2000
    (TimeInput.epoch 1000) (TimeInput.epoch 2000) rfl rfl).1

/-- C8: the credential attributes `client_id`/`client_secret` are preserved
by every operation — `authenticate`, `re_authenticate` (in success and in
mid-way failure states alike), every guarded data-retrieval call, and the
actuator stubs (which leave the whole state untouched); and a guarded call
changes the session state only by way of `re_authenticate`: its final state
is either the input state unchanged or exactly the state `re_authenticate`
produced. (`_to_milliseconds` and the request builders take no state and
return none, so they cannot mutate anything.) -/
theorem credentials_immutable_session_frame {α : Type} (st : Smappee)
    (username password : String) (j : GrantResponse) (now refreshNow : Int)
    (call : Smappee → α) (sid aid agg : Int) (start endT : TimeInput)
    (maxn : Option Int) :
    credsOf (outState ((st.authenticate username password j now).2)) = credsOf st ∧
    credsOf (outState (st.re_authenticate j now)) = credsOf st ∧
    credsOf (wrapOutState (authenticatedWrapper st now j refreshNow call)) = credsOf st ∧
    (wrapOutState (authenticatedWrapper st now j refreshNow call) = st ∨
     wrapOutState (authenticatedWrapper st now j refreshNow call) =
       outState (st.re_authenticate j refreshNow)) ∧
    credsOf (wrapOutState (st.get_service_locations now j refreshNow)) = credsOf st ∧
    credsOf (wrapOutState (st.get_service_location_info now j refreshNow sid)) = credsOf st ∧
    credsOf (wrapOutState (st.get_consumption now j refreshNow sid start endT agg)) = credsOf st ∧
    credsOf (wrapOutState (st.get_events now j refreshNow sid aid start endT maxn)) = credsOf st ∧
    st.actuator_on = (.error ("NotImplementedError"), st) ∧
    st.actuator_off = (.error ("NotImplementedError"), st) := by
  refine ⟨credsOf_applyGrant st j now, credsOf_applyGrant st j now,
          credsOf_authenticatedWrapper st now refreshNow j call,
          wrapOutState_authenticatedWrapper st now refreshNow j call,
          credsOf_authenticatedWrapper st now refreshNow j _,
          credsOf_authenticatedWrapper st now refreshNow j _,
          credsOf_authenticatedWrapper st now refreshNow j _,
          credsOf_authenticatedWrapper st now refreshNow j _,
          rfl, rfl⟩
